import Mathlib

/-! # fufuok/favicon: a shallow embedding of `favicon.go`

`New` builds a gin middleware that answers requests for `/favicon.ico` from an
icon loaded once at construction time.  The development has three layers:

* the parts of Go and gin the middleware calls (`strconv.Itoa`, `http.Header`,
  gin's `responseWriter` and `Context`), modelled as pure state transformers;
* the loader and the request handler of `favicon.go`, translated statement by
  statement;
* the properties of the handler and of the loader.

Go strings are Lean strings, `len` of a string is its UTF-8 byte size, a byte
slice is a list of bytes (a nil slice and an empty slice are both `[]`), and a
Go `panic(err)` is `Except.error err`.
-/

namespace Favicon

/-! ## Go standard library -/

/-- A byte of a Go byte slice. -/
abbrev Byte := UInt8

/-- A Go error value, identified by its message. -/
abbrev GoError := String

/-- The character of a decimal digit, as in the table `"0123456789"` indexed by
the formatting loop of `strconv`. -/
def digitChar : Nat → Char
  | 0 => '0'
  | 1 => '1'
  | 2 => '2'
  | 3 => '3'
  | 4 => '4'
  | 5 => '5'
  | 6 => '6'
  | 7 => '7'
  | 8 => '8'
  | _ => '9'

/-- The digit loop of `strconv.formatBits` in base 10: the least significant
digit is produced first and placed in front of the digits already written. -/
def formatBits (u : Nat) (acc : List Char) : List Char :=
  if u < 10 then digitChar u :: acc
  else formatBits (u / 10) (digitChar (u % 10) :: acc)
termination_by u
decreasing_by omega

/-- Go's `strconv.Itoa`: the base-10 text of an `int`, with a leading minus
sign for a negative number. -/
def Itoa (i : Int) : String :=
  if i < 0 then String.mk ('-' :: formatBits i.natAbs [])
  else String.mk (formatBits i.toNat [])

/-- The value of a decimal digit character, `none` for any other character. -/
def digitVal (c : Char) : Option Nat :=
  if 48 ≤ c.toNat ∧ c.toNat ≤ 57 then some (c.toNat - 48) else none

/-- Reads a list of characters as a decimal natural number, most significant
digit first, starting from the value `acc` of the digits already read. -/
def parseDigits : List Char → Nat → Option Nat
  | [], acc => some acc
  | c :: cs, acc =>
    match digitVal c with
    | some d => parseDigits cs (acc * 10 + d)
    | none => none

/-- Parses an unsigned decimal number: a non-empty string of digits. -/
def parseDecimal (s : String) : Option Nat :=
  match s.data with
  | [] => none
  | cs => parseDigits cs 0

/-- A canonical decimal numeral: non-empty, digits only (so no sign), and no
leading zero unless the numeral is `"0"` itself. -/
def canonicalDecimal (s : String) : Prop :=
  s.data ≠ [] ∧ (∀ c ∈ s.data, (digitVal c).isSome) ∧ (s.data.head? = some '0' → s = "0")

/-- The status code `http.StatusOK`. -/
def StatusOK : Int := 200

/-- The status code `http.StatusNoContent`. -/
def StatusNoContent : Int := 204

/-- The status code `http.StatusNotModified`. -/
def StatusNotModified : Int := 304

/-- The status code `http.StatusMethodNotAllowed`. -/
def StatusMethodNotAllowed : Int := 405

/-- Go's `http.Header`, a map from a header name to its values; a name that is
absent maps to the empty list. -/
abbrev Header := String → List String

/-- The method `http.Header.Set`: the values of `key` become the single value
`value`.  (The names the handler passes are already in canonical form.) -/
def Header.Set (h : Header) (key value : String) : Header :=
  fun k => if k = key then [value] else h k

/-- The method `http.Header.Del`: `key` is removed from the map. -/
def Header.Del (h : Header) (key : String) : Header :=
  fun k => if k = key then [] else h k

/-- The method `http.Header.Get`: the first value of `key`, or `""`. -/
def Header.Get (h : Header) (key : String) : String :=
  (h key).headD ""

/-- The result of `io.ReadAll` on an opened `http.File`: the bytes read and the
error, if any, that stopped the read. -/
structure File where
  /-- The bytes `io.ReadAll` returns. -/
  data : List Byte
  /-- The error `io.ReadAll` returns, `none` for `nil`. -/
  err : Option GoError

/-- Go's `io.ReadAll`. -/
def File.ReadAll (f : File) : List Byte × Option GoError := (f.data, f.err)

/-- Go's `http.FileSystem` interface: the single method `Open`. -/
structure FileSystem where
  /-- The method `Open(name)`: an opened file or an error. -/
  Open : String → Except GoError File

/-- The local filesystem as seen by `os.ReadFile`: the content of a path, or
the error of reading it. -/
abbrev LocalFS := String → Except GoError (List Byte)

/-- The file operations the loader can perform, recorded in program order. -/
inductive FsEvent
  /-- The call `cfg.FileSystem.Open(name)`. -/
  | fsOpen (name : String)
  /-- The call `io.ReadAll(f)` on the file opened under `name`. -/
  | readAll (name : String)
  /-- The call `f.Close()` on the file opened under `name`. -/
  | close (name : String)
  /-- The call `os.ReadFile(name)`. -/
  | osReadFile (name : String)
  deriving DecidableEq, Repr

/-! ## gin -/

/-- The fields of `http.Request` the handler reads. -/
structure Request where
  /-- The request method, as sent. -/
  Method : String
  /-- The unmodified request target of the request line. -/
  RequestURI : String
  deriving DecidableEq, Repr

/-- The value `noWritten` of gin's `responseWriter.size` before anything is
written. -/
def noWritten : Int := -1

/-- The value `abortIndex` (`math.MaxInt8 >> 1`) of gin. -/
def abortIndex : Int := 63

/-- The response writer of gin (`responseWriter`) together with what has been
handed to the underlying `http.ResponseWriter`. -/
structure ResponseWriter where
  /-- The header map of the response. -/
  header : Header
  /-- The status code, `200` until one is set. -/
  status : Int
  /-- The number of body bytes written, `noWritten` before the header is
  written. -/
  size : Int
  /-- The bytes passed to `Write`, in order. -/
  body : List Byte

/-- The method `responseWriter.Written`. -/
def ResponseWriter.Written (w : ResponseWriter) : Bool := w.size != noWritten

/-- The method `responseWriter.WriteHeader`: records the status code unless the
header has already been written. -/
def ResponseWriter.WriteHeader (w : ResponseWriter) (code : Int) : ResponseWriter :=
  if code > 0 ∧ w.status ≠ code then
    if w.Written then w
    else { w with status := code }
  else w

/-- The method `responseWriter.WriteHeaderNow`: commits the header once. -/
def ResponseWriter.WriteHeaderNow (w : ResponseWriter) : ResponseWriter :=
  if !w.Written then { w with size := 0 } else w

/-- The method `responseWriter.Write`, for an underlying writer that accepts
all the bytes. -/
def ResponseWriter.Write (w : ResponseWriter) (data : List Byte) : ResponseWriter :=
  let w := w.WriteHeaderNow
  { w with body := w.body ++ data, size := w.size + (data.length : Int) }

/-- The fields of `gin.Context` the handler reads or writes. -/
structure Context where
  /-- The request being served. -/
  Request : Favicon.Request
  /-- The response writer. -/
  Writer : ResponseWriter
  /-- The position in the handler chain; `abortIndex` or more once aborted. -/
  index : Int

/-- The method `Context.Header`: sets a response header, or deletes it when the
value is empty. -/
def Context.Header (c : Context) (key value : String) : Context :=
  if value = "" then { c with Writer := { c.Writer with header := c.Writer.header.Del key } }
  else { c with Writer := { c.Writer with header := c.Writer.header.Set key value } }

/-- The method `Context.Status`. -/
def Context.Status (c : Context) (code : Int) : Context :=
  { c with Writer := c.Writer.WriteHeader code }

/-- The method `Context.Abort`: no handler after the current one is called. -/
def Context.Abort (c : Context) : Context :=
  { c with index := abortIndex }

/-- The method `Context.IsAborted`. -/
def Context.IsAborted (c : Context) : Bool := decide (c.index ≥ abortIndex)

/-- The method `Context.AbortWithStatus`. -/
def Context.AbortWithStatus (c : Context) (code : Int) : Context :=
  let c := c.Status code
  let c := { c with Writer := c.Writer.WriteHeaderNow }
  c.Abort

/-- The function `bodyAllowedForStatus` of gin. -/
def bodyAllowedForStatus (status : Int) : Bool :=
  if status ≥ 100 ∧ status ≤ 199 then false
  else if status = StatusNoContent then false
  else if status = StatusNotModified then false
  else true

/-- The function `writeContentType` of gin's render package: the content type
is set only when the response has none yet. -/
def writeContentType (w : ResponseWriter) (value : List String) : ResponseWriter :=
  if (w.header "Content-Type").length = 0 then
    { w with header := fun k => if k = "Content-Type" then value else w.header k }
  else w

/-- The method `Context.Data`: `Render` with the `render.Data` renderer. -/
def Context.Data (c : Context) (code : Int) (contentType : String) (data : List Byte) :
    Context :=
  let c := c.Status code
  if !bodyAllowedForStatus code then
    { c with Writer := (writeContentType c.Writer [contentType]).WriteHeaderNow }
  else
    { c with Writer := (writeContentType c.Writer [contentType]).Write data }

/-! ## favicon.go -/

/-- The configuration of the middleware. -/
structure Config where
  /-- The path to a favicon that will be cached. -/
  File : String := ""
  /-- An alternate filesystem to search for the favicon in, `none` for nil. -/
  FileSystem : Option Favicon.FileSystem := none
  /-- The favicon file data that will be cached; `[]` for nil. -/
  FileData : List Byte := []
  /-- The value of the Cache-Control header of the response. -/
  CacheControl : String := ""

/-- The declared value of the package variable `ConfigDefault`. -/
def ConfigDefault : Config :=
  { CacheControl := "public, max-age=31536000" }

/-- The closure `New` returns, given by the variables it captures. -/
structure HandlerFunc where
  /-- The captured configuration. -/
  cfg : Config
  /-- The captured icon bytes. -/
  icon : List Byte
  /-- The captured decimal text of the icon length. -/
  iconLen : String

/-- The outcome of a call of `New`: the file operations performed, and the
handler returned or the error `New` panicked with. -/
structure NewResult where
  /-- The file operations performed, in program order. -/
  trace : List FsEvent
  /-- The handler, or the value passed to `panic`. -/
  out : Except GoError HandlerFunc

/-- The first part of `New`: the configuration in use, from the package default
`dflt` and the variadic arguments `config`. -/
def resolveConfig (dflt : Config) (config : List Config) : Config :=
  match config with
  | [] => dflt
  | c0 :: _ =>
    let cfg := c0
    let cfg := if cfg.File = "" then { cfg with File := dflt.File } else cfg
    let cfg := if cfg.CacheControl = "" then { cfg with CacheControl := dflt.CacheControl } else cfg
    cfg

/-- The function `New`, for the value `dflt` of the package variable
`ConfigDefault` and the local filesystem `os`. -/
def NewFrom (dflt : Config) (os : LocalFS) (config : List Config) : NewResult :=
  let cfg := resolveConfig dflt config
  let icon := cfg.FileData
  if cfg.File ≠ "" then
    match cfg.FileSystem with
    | some fs =>
      match fs.Open cfg.File with
      | Except.error err => { trace := [FsEvent.fsOpen cfg.File], out := Except.error err }
      | Except.ok f =>
        match f.ReadAll with
        | (_, some err) =>
          { trace := [FsEvent.fsOpen cfg.File, FsEvent.readAll cfg.File],
            out := Except.error err }
        | (icon, none) =>
          { trace := [FsEvent.fsOpen cfg.File, FsEvent.readAll cfg.File],
            out := Except.ok { cfg := cfg, icon := icon, iconLen := Itoa (icon.length : Int) } }
    | none =>
      match os cfg.File with
      | Except.error err => { trace := [FsEvent.osReadFile cfg.File], out := Except.error err }
      | Except.ok icon =>
        { trace := [FsEvent.osReadFile cfg.File],
          out := Except.ok { cfg := cfg, icon := icon, iconLen := Itoa (icon.length : Int) } }
  else
    { trace := [],
      out := Except.ok { cfg := cfg, icon := icon, iconLen := Itoa (icon.length : Int) } }

/-- The function `New` with `ConfigDefault` at its declared value. -/
def New (os : LocalFS) (config : List Config) : NewResult :=
  NewFrom ConfigDefault os config

/-- The body of the handler `New` returns, run on the context `c`. -/
def HandlerFunc.call (h : HandlerFunc) (c : Context) : Context :=
  if c.Request.RequestURI.utf8ByteSize ≠ 12 ∨ c.Request.RequestURI ≠ "/favicon.ico" then c
  else if c.Request.Method ≠ "GET" ∧ c.Request.Method ≠ "HEAD" then
    let c := c.Header "Allow" "GET, HEAD, OPTIONS"
    let c := c.Header "Content-Length" "0"
    if c.Request.Method ≠ "OPTIONS" then c.AbortWithStatus StatusMethodNotAllowed
    else c.AbortWithStatus StatusOK
  else if h.iconLen = "0" then c.AbortWithStatus StatusNoContent
  else
    let c := c.Header "Content-Length" h.iconLen
    let c := c.Header "Cache-Control" h.cfg.CacheControl
    let c := c.Data StatusOK "image/x-icon" h.icon
    c.Abort

/-- A context as gin hands it to the first handler of a chain: no header set,
status 200, nothing written, the chain at its first handler. -/
def Context.fresh (req : Favicon.Request) : Context :=
  { Request := req,
    Writer := { header := fun _ => [], status := 200, size := noWritten, body := [] },
    index := 0 }


/-- Nothing has been written to the response yet: the header is not committed
and no body byte has been handed to the writer. -/
def Context.Unwritten (c : Context) : Prop :=
  c.Writer.Written = false ∧ c.Writer.body = []

/-- Whether loading the icon of the configuration `cfg` fails: the file cannot
be opened or cannot be read to its end, through `cfg.FileSystem` when it is
set and on the local filesystem `os` otherwise. -/
def loadFails (os : LocalFS) (cfg : Config) : Bool :=
  match cfg.FileSystem with
  | some fs =>
    match fs.Open cfg.File with
    | Except.error _ => true
    | Except.ok f => f.ReadAll.2.isSome
  | none =>
    match os cfg.File with
    | Except.error _ => true
    | Except.ok _ => false

/-- The resolved icon of a call of `New`, `none` when `New` panicked. -/
def NewResult.icon (r : NewResult) : Option (List Byte) :=
  match r.out with
  | Except.ok h => some h.icon
  | Except.error _ => none

/-- A local filesystem with a single file, `icon`, of three bytes. -/
def exampleOS : LocalFS :=
  fun name => if name = "icon" then Except.ok [1, 2, 3]
    else Except.error "open: no such file or directory"

/-- An abstract filesystem with a single file, `icon`, of two bytes. -/
def exampleFS : FileSystem :=
  { Open := fun name => if name = "icon" then Except.ok { data := [4, 5], err := none }
      else Except.error "file does not exist" }

/-- An abstract filesystem whose files open but fail while being read. -/
def exampleBrokenFS : FileSystem :=
  { Open := fun _ => Except.ok { data := [], err := some "unexpected EOF" } }

/-- Go's conversion `[]byte(s)`: the UTF-8 bytes of a string. -/
def bytesOf (s : String) : List Byte := s.toUTF8.data.toList

/-- The outcomes of the decision procedure of the handler, under the names the
data model of the specification gives them. -/
inductive RequestDecision
  /-- The request is left to the rest of the chain. -/
  | NotHandled
  /-- Status 204, for an empty icon. -/
  | NoContent
  /-- Status 405, for a method other than GET, HEAD and OPTIONS. -/
  | MethodNotAllowed
  /-- Status 200 with the Allow header, for OPTIONS. -/
  | OptionsOk
  /-- Status 200 with the icon as the body. -/
  | Served
  deriving DecidableEq, Repr

/-- The calls on the context that make up each outcome, as the branches of the
handler perform them. -/
def RequestDecision.respond (d : RequestDecision) (h : HandlerFunc) (c : Context) : Context :=
  match d with
  | RequestDecision.NotHandled => c
  | RequestDecision.NoContent => c.AbortWithStatus StatusNoContent
  | RequestDecision.MethodNotAllowed =>
    ((c.Header "Allow" "GET, HEAD, OPTIONS").Header "Content-Length" "0").AbortWithStatus
      StatusMethodNotAllowed
  | RequestDecision.OptionsOk =>
    ((c.Header "Allow" "GET, HEAD, OPTIONS").Header "Content-Length" "0").AbortWithStatus StatusOK
  | RequestDecision.Served =>
    (((c.Header "Content-Length" h.iconLen).Header "Cache-Control" h.cfg.CacheControl).Data
      StatusOK "image/x-icon" h.icon).Abort

/-- Whether the loop of gin's `Context.Next` calls a further handler once the
current one has returned, in a chain of `n` handlers: the loop increments
`index` and goes on while `index < n`. -/
def Context.nextRuns (c : Context) (n : Nat) : Bool := decide (c.index + 1 < (n : Int))

/-- The memory of the running program, as far as byte slices go: the backing
arrays, by address. -/
abbrev Memory := Nat → List Byte

/-- A Go slice value: the address of its backing array and its length (the
capacity plays no part here). -/
structure Slice where
  /-- The address of the backing array. -/
  ptr : Nat
  /-- The number of bytes of the slice. -/
  len : Nat
  deriving DecidableEq, Repr

/-- The bytes a slice holds in a memory. -/
def Slice.bytes (s : Slice) (mem : Memory) : List Byte := (mem s.ptr).take s.len

/-- The assignment `s[i] = b` of Go, executed by any code that holds the slice
`s`: the backing array changes, for every slice that shares it. -/
def Memory.store (mem : Memory) (s : Slice) (i : Nat) (b : Byte) : Memory :=
  fun a => if a = s.ptr ∧ i < s.len then (mem a).set i b else mem a

/-- The variables the closure captures, as the running program holds them:
`icon` is a slice value, and when no File is configured it is the FileData
slice of the caller itself (`icon = cfg.FileData`, no copy is made). -/
structure Closure where
  /-- The captured variable `cfg`. -/
  cfg : Config
  /-- The captured variable `icon`. -/
  icon : Slice
  /-- The captured variable `iconLen`. -/
  iconLen : String

/-- The handler value a closure stands for in a memory: its icon is the bytes
the slice holds there. -/
def Closure.handler (k : Closure) (mem : Memory) : HandlerFunc :=
  { cfg := k.cfg, icon := k.icon.bytes mem, iconLen := k.iconLen }

/-- The state a call of the handler runs on: the captured variables, the
memory, and the context of the request. -/
structure Machine where
  /-- The captured variables of the closure. -/
  vars : Closure
  /-- The memory. -/
  mem : Memory
  /-- The context passed to the handler. -/
  c : Context

/-- The call `c.Header(key, value)` on the state. -/
def Machine.Header (s : Machine) (key value : String) : Machine :=
  { s with c := s.c.Header key value }

/-- The call `c.AbortWithStatus(code)` on the state. -/
def Machine.AbortWithStatus (s : Machine) (code : Int) : Machine :=
  { s with c := s.c.AbortWithStatus code }

/-- The call `c.Data(code, contentType, data)` on the state: the writer is
handed the bytes the slice `data` holds in memory at the time of the call. -/
def Machine.Data (s : Machine) (code : Int) (contentType : String) (data : Slice) : Machine :=
  { s with c := s.c.Data code contentType (data.bytes s.mem) }

/-- The call `c.Abort()` on the state. -/
def Machine.Abort (s : Machine) : Machine :=
  { s with c := s.c.Abort }

/-- The body of the handler as a transformer of the whole state, statement by
statement. -/
def Machine.serve (s : Machine) : Machine :=
  if s.c.Request.RequestURI.utf8ByteSize ≠ 12 ∨ s.c.Request.RequestURI ≠ "/favicon.ico" then s
  else if s.c.Request.Method ≠ "GET" ∧ s.c.Request.Method ≠ "HEAD" then
    let s := s.Header "Allow" "GET, HEAD, OPTIONS"
    let s := s.Header "Content-Length" "0"
    if s.c.Request.Method ≠ "OPTIONS" then s.AbortWithStatus StatusMethodNotAllowed
    else s.AbortWithStatus StatusOK
  else if s.vars.iconLen = "0" then s.AbortWithStatus StatusNoContent
  else
    let s := s.Header "Content-Length" s.vars.iconLen
    let s := s.Header "Cache-Control" s.vars.cfg.CacheControl
    let s := s.Data StatusOK "image/x-icon" s.vars.icon
    s.Abort

/-- What happens in the program once `New` has returned: gin calls the handler
for a request, on a context of its own, or other code stores a byte through a
slice it holds. -/
inductive Event
  /-- A request is handled. -/
  | request (req : Favicon.Request)
  /-- Other code executes `s[i] = b`. -/
  | store (s : Slice) (i : Nat) (b : Byte)

/-- An event leaves the array at address `ptr` alone: it is a request, or a
store into another array. -/
def Event.avoids (ptr : Nat) : Event → Prop
  | Event.request _ => True
  | Event.store s _ _ => s.ptr ≠ ptr

/-- The requests of a sequence of events, in order. -/
def requestsOf : List Event → List Request
  | [] => []
  | Event.request req :: es => req :: requestsOf es
  | Event.store _ _ _ :: es => requestsOf es

/-- The program after a sequence of events. -/
structure RunState where
  /-- The captured variables of the closure. -/
  vars : Closure
  /-- The memory. -/
  mem : Memory
  /-- The contexts after each call of the handler, in order. -/
  responses : List Context

/-- Runs a sequence of events from the captured variables `k` and the memory
`mem`. -/
def run : Closure → Memory → List Event → RunState
  | k, mem, [] => { vars := k, mem := mem, responses := [] }
  | k, mem, Event.request req :: es =>
    let s := Machine.serve { vars := k, mem := mem, c := Context.fresh req }
    let r := run s.vars s.mem es
    { r with responses := s.c :: r.responses }
  | k, mem, Event.store sl i b :: es => run k (mem.store sl i b) es

/-- The response table of the specification (HTTP surface), as the context a
fresh request ends in: a function of the method and the RequestURI, for given
icon bytes and cache-control string. -/
def specResponse (icon : List Byte) (cacheControl : String) (req : Request) : Context :=
  if req.RequestURI = "/favicon.ico" then
    if req.Method = "GET" ∨ req.Method = "HEAD" then
      if icon = [] then
        { Request := req,
          Writer := { header := fun _ => [], status := 204, size := 0, body := [] },
          index := abortIndex }
      else
        { Request := req,
          Writer :=
            { header := fun key =>
                if key = "Content-Type" then ["image/x-icon"]
                else if key = "Content-Length" then [Itoa (icon.length : Int)]
                else if key = "Cache-Control" then [cacheControl]
                else [],
              status := 200, size := (icon.length : Int), body := icon },
          index := abortIndex }
    else if req.Method = "OPTIONS" then
      { Request := req,
        Writer :=
          { header := fun key =>
              if key = "Allow" then ["GET, HEAD, OPTIONS"]
              else if key = "Content-Length" then ["0"]
              else [],
            status := 200, size := 0, body := [] },
        index := abortIndex }
    else
      { Request := req,
        Writer :=
          { header := fun key =>
              if key = "Allow" then ["GET, HEAD, OPTIONS"]
              else if key = "Content-Length" then ["0"]
              else [],
            status := 405, size := 0, body := [] },
        index := abortIndex }
  else Context.fresh req

/-- A memory with the three bytes `7, 8, 9` at address 0. -/
def exampleMemory : Memory := fun a => if a = 0 then [7, 8, 9] else [0, 0]

/-- The names of the files of a trace that are opened and not closed, given
those already open. -/
def openHandlesFrom (opened : List String) : List FsEvent → List String
  | [] => opened
  | FsEvent.fsOpen name :: es => openHandlesFrom (opened ++ [name]) es
  | FsEvent.close name :: es => openHandlesFrom (opened.erase name) es
  | FsEvent.readAll _ :: es => openHandlesFrom opened es
  | FsEvent.osReadFile _ :: es => openHandlesFrom opened es

/-- The file handles a trace leaves open.  (`os.ReadFile` opens and closes its
file itself.) -/
def openHandles (trace : List FsEvent) : List String := openHandlesFrom [] trace

/-! ## Decimal formatting -/

theorem digitVal_digitChar (d : Nat) (hd : d < 10) : digitVal (digitChar d) = some d := by
  interval_cases d <;> decide

theorem digitChar_ne_zero (d : Nat) (h0 : 0 < d) (hd : d < 10) : digitChar d ≠ '0' := by
  interval_cases d <;> decide

theorem formatBits_lt (u : Nat) (acc : List Char) (hu : u < 10) :
    formatBits u acc = digitChar u :: acc := by
  rw [formatBits, if_pos hu]

theorem formatBits_ge (u : Nat) (acc : List Char) (hu : ¬ u < 10) :
    formatBits u acc = formatBits (u / 10) (digitChar (u % 10) :: acc) := by
  rw [formatBits, if_neg hu]

theorem parseDigits_formatBits (u : Nat) :
    ∀ acc : List Char, parseDigits (formatBits u acc) 0 = parseDigits acc u := by
  induction u using Nat.strong_induction_on with
  | _ u ih =>
    intro acc
    by_cases hu : u < 10
    · rw [formatBits_lt u acc hu]
      simp [parseDigits, digitVal_digitChar u hu]
    · rw [formatBits_ge u acc hu, ih (u / 10) (by omega)]
      have hm : u % 10 < 10 := Nat.mod_lt _ (by decide)
      simp only [parseDigits, digitVal_digitChar _ hm]
      congr 1
      omega

theorem formatBits_digits (u : Nat) :
    ∀ acc : List Char, ∀ c ∈ formatBits u acc, (digitVal c).isSome ∨ c ∈ acc := by
  induction u using Nat.strong_induction_on with
  | _ u ih =>
    intro acc c hc
    by_cases hu : u < 10
    · rw [formatBits_lt u acc hu] at hc
      rcases List.mem_cons.1 hc with h | h
      · left; rw [h, digitVal_digitChar u hu]; rfl
      · right; exact h
    · rw [formatBits_ge u acc hu] at hc
      have hm : u % 10 < 10 := Nat.mod_lt _ (by decide)
      rcases ih (u / 10) (by omega) _ c hc with h | h
      · left; exact h
      · rcases List.mem_cons.1 h with h | h
        · left; rw [h, digitVal_digitChar _ hm]; rfl
        · right; exact h

theorem formatBits_head (u : Nat) :
    ∀ acc : List Char, 0 < u →
      ∃ d tl, 0 < d ∧ d < 10 ∧ formatBits u acc = digitChar d :: tl := by
  induction u using Nat.strong_induction_on with
  | _ u ih =>
    intro acc h0
    by_cases hu : u < 10
    · exact ⟨u, acc, h0, hu, formatBits_lt u acc hu⟩
    · rw [formatBits_ge u acc hu]
      exact ih (u / 10) (by omega) _ (by omega)

theorem formatBits_ne_nil (u : Nat) (acc : List Char) : formatBits u acc ≠ [] := by
  rcases Nat.eq_zero_or_pos u with h | h
  · subst h; rw [formatBits_lt 0 acc (by decide)]; simp
  · obtain ⟨d, tl, -, -, e⟩ := formatBits_head u acc h
    rw [e]; simp

theorem Itoa_natCast (n : Nat) : Itoa (n : Int) = String.mk (formatBits n []) := by
  simp [Itoa]

theorem Itoa_zero : Itoa ((0 : Nat) : Int) = "0" := by
  rw [Itoa_natCast, formatBits_lt 0 [] (by decide)]; rfl

theorem Itoa_eq_zero_iff (n : Nat) : Itoa (n : Int) = "0" ↔ n = 0 := by
  constructor
  · intro h
    by_contra hn
    obtain ⟨d, tl, h0, hd, e⟩ := formatBits_head n [] (Nat.pos_of_ne_zero hn)
    rw [Itoa_natCast, e] at h
    have h2 : (digitChar d :: tl) = ['0'] := congrArg String.data h
    exact digitChar_ne_zero d h0 hd (List.cons.inj h2).1
  · intro h; subst h; exact Itoa_zero

theorem parseDecimal_Itoa (n : Nat) : parseDecimal (Itoa (n : Int)) = some n := by
  rw [Itoa_natCast]
  unfold parseDecimal
  have hne := formatBits_ne_nil n []
  have hp := parseDigits_formatBits n []
  simp only [parseDigits] at hp
  split
  · next h => exact absurd h hne
  · exact hp

theorem canonicalDecimal_Itoa (n : Nat) : canonicalDecimal (Itoa (n : Int)) := by
  refine ⟨?_, ?_, ?_⟩
  · rw [Itoa_natCast]; exact formatBits_ne_nil n []
  · intro c hc
    rw [Itoa_natCast] at hc
    rcases formatBits_digits n [] c hc with h | h
    · exact h
    · simp at h
  · intro hh
    rcases Nat.eq_zero_or_pos n with h | h
    · subst h; exact Itoa_zero
    · obtain ⟨d, tl, h0, hd, e⟩ := formatBits_head n [] h
      rw [Itoa_natCast, e] at hh
      simp at hh
      exact absurd hh (digitChar_ne_zero d h0 hd)

/-! ## The loader -/

theorem NewFrom_iconLen (dflt : Config) (os : LocalFS) (config : List Config) (h : HandlerFunc)
    (hnew : (NewFrom dflt os config).out = Except.ok h) :
    h.iconLen = Itoa (h.icon.length : Int) ∧ h.cfg = resolveConfig dflt config := by
  unfold NewFrom at hnew
  simp only at hnew
  split at hnew
  · split at hnew
    · split at hnew
      · simp at hnew
      · split at hnew
        · simp at hnew
        · simp only [Except.ok.injEq] at hnew
          subst hnew
          exact ⟨rfl, rfl⟩
    · split at hnew
      · simp at hnew
      · simp only [Except.ok.injEq] at hnew
        subst hnew
        exact ⟨rfl, rfl⟩
  · simp only [Except.ok.injEq] at hnew
    subst hnew
    exact ⟨rfl, rfl⟩

theorem resolveConfig_cacheControl (c0 : Config) (rest : List Config) :
    (resolveConfig ConfigDefault (c0 :: rest)).CacheControl =
      if c0.CacheControl = "" then "public, max-age=31536000" else c0.CacheControl := by
  unfold resolveConfig
  by_cases hf : c0.File = "" <;> by_cases hc : c0.CacheControl = "" <;>
    simp [hf, hc, ConfigDefault]

theorem resolveConfig_cacheControl_ne (config : List Config) :
    (resolveConfig ConfigDefault config).CacheControl ≠ "" := by
  cases config with
  | nil => simp [resolveConfig, ConfigDefault]
  | cons c0 rest =>
    rw [resolveConfig_cacheControl]
    by_cases hc : c0.CacheControl = ""
    · simp [hc]
    · simp [hc]

/-! ## The handler, branch by branch -/

theorem call_other (h : HandlerFunc) (c : Context)
    (huri : c.Request.RequestURI ≠ "/favicon.ico") : h.call c = c := by
  unfold HandlerFunc.call
  rw [if_pos (Or.inr huri)]

theorem favicon_guard (uri : String) (huri : uri = "/favicon.ico") :
    ¬ (uri.utf8ByteSize ≠ 12 ∨ uri ≠ "/favicon.ico") := by
  subst huri
  decide

theorem call_gate (h : HandlerFunc) (c : Context)
    (huri : c.Request.RequestURI = "/favicon.ico")
    (hget : c.Request.Method ≠ "GET") (hhead : c.Request.Method ≠ "HEAD") :
    h.call c =
      ((c.Header "Allow" "GET, HEAD, OPTIONS").Header "Content-Length" "0").AbortWithStatus
        (if c.Request.Method ≠ "OPTIONS" then StatusMethodNotAllowed else StatusOK) := by
  unfold HandlerFunc.call
  rw [if_neg (favicon_guard _ huri), if_pos ⟨hget, hhead⟩]
  by_cases ho : c.Request.Method = "OPTIONS"
  · simp [ho, Context.Header]
  · simp [ho, Context.Header]

theorem call_noContent (h : HandlerFunc) (c : Context)
    (huri : c.Request.RequestURI = "/favicon.ico")
    (hm : c.Request.Method = "GET" ∨ c.Request.Method = "HEAD")
    (hlen : h.iconLen = "0") :
    h.call c = c.AbortWithStatus StatusNoContent := by
  unfold HandlerFunc.call
  have hg : ¬ (c.Request.Method ≠ "GET" ∧ c.Request.Method ≠ "HEAD") := by
    rcases hm with hm | hm <;> simp [hm]
  rw [if_neg (favicon_guard _ huri), if_neg hg, if_pos hlen]

theorem call_serve (h : HandlerFunc) (c : Context)
    (huri : c.Request.RequestURI = "/favicon.ico")
    (hm : c.Request.Method = "GET" ∨ c.Request.Method = "HEAD")
    (hlen : h.iconLen ≠ "0") :
    h.call c =
      (((c.Header "Content-Length" h.iconLen).Header "Cache-Control" h.cfg.CacheControl).Data
        StatusOK "image/x-icon" h.icon).Abort := by
  unfold HandlerFunc.call
  have hg : ¬ (c.Request.Method ≠ "GET" ∧ c.Request.Method ≠ "HEAD") := by
    rcases hm with hm | hm <;> simp [hm]
  rw [if_neg (favicon_guard _ huri), if_neg hg, if_neg hlen]

/-- The response of the method gate, field by field. -/
theorem gate_fields (c : Context) (code : Int) (hcode : code > 0)
    (hw : c.Writer.Written = false) :
    let r := ((c.Header "Allow" "GET, HEAD, OPTIONS").Header "Content-Length" "0").AbortWithStatus
      code
    r.Writer.status = code ∧ r.Writer.header "Allow" = ["GET, HEAD, OPTIONS"] ∧
      r.Writer.header "Content-Length" = ["0"] ∧
      r.Writer.header = (c.Writer.header.Set "Allow" "GET, HEAD, OPTIONS").Set "Content-Length" "0" ∧
      r.Writer.body = c.Writer.body ∧ r.Writer.Written = true ∧ r.IsAborted = true ∧
      r.Request = c.Request := by
  intro r
  have hsz : c.Writer.size = noWritten := by
    simpa [ResponseWriter.Written] using hw
  by_cases hs : c.Writer.status = code
  · simp [r, Context.AbortWithStatus, Context.Status, Context.Abort, Context.Header,
      ResponseWriter.WriteHeader, ResponseWriter.WriteHeaderNow, ResponseWriter.Written,
      Context.IsAborted, Header.Set, hs, hsz, noWritten, abortIndex]
  · simp [r, Context.AbortWithStatus, Context.Status, Context.Abort, Context.Header,
      ResponseWriter.WriteHeader, ResponseWriter.WriteHeaderNow, ResponseWriter.Written,
      Context.IsAborted, Header.Set, hs, hsz, hcode, noWritten, abortIndex]

/-- The response of the empty-icon gate, field by field. -/
theorem noContent_fields (c : Context) (hw : c.Writer.Written = false) :
    let r := c.AbortWithStatus StatusNoContent
    r.Writer.status = 204 ∧ r.Writer.header = c.Writer.header ∧
      r.Writer.body = c.Writer.body ∧ r.Writer.Written = true ∧ r.IsAborted = true ∧
      r.Request = c.Request := by
  intro r
  have hsz : c.Writer.size = noWritten := by
    simpa [ResponseWriter.Written] using hw
  by_cases hs : c.Writer.status = 204
  · simp [r, Context.AbortWithStatus, Context.Status, Context.Abort,
      ResponseWriter.WriteHeader, ResponseWriter.WriteHeaderNow, ResponseWriter.Written,
      Context.IsAborted, hs, hsz, noWritten, abortIndex, StatusNoContent]
  · simp [r, Context.AbortWithStatus, Context.Status, Context.Abort,
      ResponseWriter.WriteHeader, ResponseWriter.WriteHeaderNow, ResponseWriter.Written,
      Context.IsAborted, hs, hsz, noWritten, abortIndex, StatusNoContent]

/-- The served response, field by field. -/
theorem serve_fields (c : Context) (len cc : String) (icon : List Byte)
    (hlen : len ≠ "") (hw : c.Writer.Written = false) :
    let r := (((c.Header "Content-Length" len).Header "Cache-Control" cc).Data
        StatusOK "image/x-icon" icon).Abort
    r.Writer.status = 200 ∧
      r.Writer.header "Content-Type" =
        (if c.Writer.header "Content-Type" = [] then ["image/x-icon"]
          else c.Writer.header "Content-Type") ∧
      r.Writer.header "Content-Length" = [len] ∧
      r.Writer.header "Cache-Control" = (if cc = "" then [] else [cc]) ∧
      r.Writer.body = c.Writer.body ++ icon ∧ r.Writer.size = (icon.length : Int) ∧
      r.IsAborted = true ∧ r.Request = c.Request := by
  intro r
  have hsz : c.Writer.size = noWritten := by
    simpa [ResponseWriter.Written] using hw
  by_cases hs : c.Writer.status = 200 <;> by_cases hcc : cc = "" <;>
    by_cases hct : c.Writer.header "Content-Type" = [] <;>
    simp [r, Context.Data, Context.Status, Context.Abort, Context.Header, writeContentType,
      bodyAllowedForStatus, ResponseWriter.Write,
      ResponseWriter.WriteHeader, ResponseWriter.WriteHeaderNow, ResponseWriter.Written,
      Context.IsAborted, Header.Set, Header.Del, hs, hsz, hlen, hcc, hct, noWritten, abortIndex,
      StatusOK, StatusNoContent, StatusNotModified]


theorem New_iconLen_ne (dflt : Config) (os : LocalFS) (config : List Config) (h : HandlerFunc)
    (hnew : (NewFrom dflt os config).out = Except.ok h) :
    h.iconLen ≠ "" ∧ (h.iconLen = "0" ↔ h.icon = []) := by
  obtain ⟨hl, -⟩ := NewFrom_iconLen dflt os config h hnew
  rw [hl]
  refine ⟨?_, ?_⟩
  · intro he
    have h1 := (canonicalDecimal_Itoa h.icon.length).1
    rw [he] at h1
    exact h1 rfl
  · rw [Itoa_eq_zero_iff]
    exact List.length_eq_zero

/-! ## The request handler -/

/-- C1: a request whose RequestURI is not exactly `/favicon.ico` leaves the
context as it was, for every handler value (so for the handler `New` returns
for any configuration) and every method: no header, no status, no body byte,
and the chain is not aborted by the handler. -/
theorem C1_other_target_untouched (h : HandlerFunc) (c : Context)
    (huri : c.Request.RequestURI ≠ "/favicon.ico") :
    h.call c = c ∧ (h.call c).Writer.header = c.Writer.header ∧
      (h.call c).Writer.status = c.Writer.status ∧ (h.call c).Writer.size = c.Writer.size ∧
      (h.call c).Writer.body = c.Writer.body ∧ (h.call c).IsAborted = c.IsAborted := by
  rw [call_other h c huri]
  exact ⟨rfl, rfl, rfl, rfl, rfl, rfl⟩

/-- C1 at the target `/favicon.ico?x=1` of a GET request, for the handler of
`New()`: the fresh context comes back unchanged and not aborted. -/
theorem C1_other_target_untouched_witness :
    (Context.fresh ⟨"GET", "/favicon.ico?x=1"⟩).Request.RequestURI ≠ "/favicon.ico" ∧
      (HandlerFunc.mk ConfigDefault [] "0").call (Context.fresh ⟨"GET", "/favicon.ico?x=1"⟩) =
        Context.fresh ⟨"GET", "/favicon.ico?x=1"⟩ ∧
      ((HandlerFunc.mk ConfigDefault [] "0").call
        (Context.fresh ⟨"GET", "/favicon.ico?x=1"⟩)).IsAborted = false :=
  ⟨by decide,
    (C1_other_target_untouched (HandlerFunc.mk ConfigDefault [] "0")
      (Context.fresh ⟨"GET", "/favicon.ico?x=1"⟩) (by decide)).1,
    ((C1_other_target_untouched (HandlerFunc.mk ConfigDefault [] "0")
      (Context.fresh ⟨"GET", "/favicon.ico?x=1"⟩) (by decide)).2.2.2.2.2).trans (by decide)⟩

/-- C2: for the handler `New` returns with a non-empty resolved icon, a GET or
HEAD request for `/favicon.ico` on a response nothing has been written to
gets status 200, Content-Type `image/x-icon`, Cache-Control equal to the value
of the configuration in use, a body (the bytes the handler hands to the
writer) equal to the resolved icon, and the chain is aborted. -/
theorem C2_served_response (os : LocalFS) (config : List Config) (h : HandlerFunc) (c : Context)
    (hnew : (New os config).out = Except.ok h) (hicon : h.icon ≠ [])
    (huri : c.Request.RequestURI = "/favicon.ico")
    (hm : c.Request.Method = "GET" ∨ c.Request.Method = "HEAD")
    (hc : c.Unwritten) (hct : c.Writer.header "Content-Type" = []) :
    (h.call c).Writer.status = 200 ∧
      (h.call c).Writer.header "Content-Type" = ["image/x-icon"] ∧
      (h.call c).Writer.header "Cache-Control" =
        [(resolveConfig ConfigDefault config).CacheControl] ∧
      (h.call c).Writer.body = h.icon ∧ (h.call c).IsAborted = true := by
  obtain ⟨hne, hz⟩ := New_iconLen_ne ConfigDefault os config h hnew
  obtain ⟨-, hcfg⟩ := NewFrom_iconLen ConfigDefault os config h hnew
  have hlen : h.iconLen ≠ "0" := fun e => hicon (hz.1 e)
  rw [call_serve h c huri hm hlen]
  obtain ⟨h1, h2, -, h4, h5, -, h7, -⟩ :=
    serve_fields c h.iconLen h.cfg.CacheControl h.icon hne hc.1
  have hcc : h.cfg.CacheControl ≠ "" := by
    rw [hcfg]; exact resolveConfig_cacheControl_ne config
  refine ⟨h1, ?_, ?_, ?_, h7⟩
  · rw [h2, if_pos hct]
  · rw [h4, if_neg hcc, hcfg]
  · rw [h5, hc.2, List.nil_append]

/-- C2 for `New(Config{FileData: [7, 8, 9]})` and a HEAD request. -/
theorem C2_served_response_witness :
    ((HandlerFunc.mk (resolveConfig ConfigDefault [{ FileData := [7, 8, 9] }]) [7, 8, 9]
        (Itoa 3)).call (Context.fresh ⟨"HEAD", "/favicon.ico"⟩)).Writer.status = 200 ∧
      ((HandlerFunc.mk (resolveConfig ConfigDefault [{ FileData := [7, 8, 9] }]) [7, 8, 9]
        (Itoa 3)).call (Context.fresh ⟨"HEAD", "/favicon.ico"⟩)).Writer.header "Content-Type" =
          ["image/x-icon"] ∧
      ((HandlerFunc.mk (resolveConfig ConfigDefault [{ FileData := [7, 8, 9] }]) [7, 8, 9]
        (Itoa 3)).call (Context.fresh ⟨"HEAD", "/favicon.ico"⟩)).Writer.header "Cache-Control" =
          ["public, max-age=31536000"] ∧
      ((HandlerFunc.mk (resolveConfig ConfigDefault [{ FileData := [7, 8, 9] }]) [7, 8, 9]
        (Itoa 3)).call (Context.fresh ⟨"HEAD", "/favicon.ico"⟩)).Writer.body = [7, 8, 9] ∧
      ((HandlerFunc.mk (resolveConfig ConfigDefault [{ FileData := [7, 8, 9] }]) [7, 8, 9]
        (Itoa 3)).call (Context.fresh ⟨"HEAD", "/favicon.ico"⟩)).IsAborted = true :=
  C2_served_response exampleOS [{ FileData := [7, 8, 9] }]
    (HandlerFunc.mk (resolveConfig ConfigDefault [{ FileData := [7, 8, 9] }]) [7, 8, 9] (Itoa 3))
    (Context.fresh ⟨"HEAD", "/favicon.ico"⟩) rfl (by decide) rfl (Or.inr rfl) ⟨rfl, rfl⟩ rfl

/-- C3: for the handler `New` returns with a resolved icon of `n > 0` bytes,
the Content-Length header of the served response is a canonical decimal
numeral (digits only, no leading zero) whose value is the number of body bytes
written, which is `n`. -/
theorem C3_content_length_decimal (os : LocalFS) (config : List Config) (h : HandlerFunc)
    (c : Context) (hnew : (New os config).out = Except.ok h) (hicon : 0 < h.icon.length)
    (huri : c.Request.RequestURI = "/favicon.ico")
    (hm : c.Request.Method = "GET" ∨ c.Request.Method = "HEAD")
    (hc : c.Unwritten) :
    ∃ s : String, (h.call c).Writer.header "Content-Length" = [s] ∧
      s = Itoa (h.icon.length : Int) ∧ canonicalDecimal s ∧
      parseDecimal s = some (h.call c).Writer.body.length ∧
      (h.call c).Writer.body.length = h.icon.length ∧
      (h.call c).Writer.size = (h.icon.length : Int) ∧ (h.call c).Writer.status = 200 := by
  obtain ⟨hne, hz⟩ := New_iconLen_ne ConfigDefault os config h hnew
  obtain ⟨hl, -⟩ := NewFrom_iconLen ConfigDefault os config h hnew
  have hlen : h.iconLen ≠ "0" := fun e => by
    have := hz.1 e
    rw [this] at hicon
    exact absurd hicon (by decide)
  rw [call_serve h c huri hm hlen]
  obtain ⟨h1, -, h3, -, h5, h6, -, -⟩ :=
    serve_fields c h.iconLen h.cfg.CacheControl h.icon hne hc.1
  refine ⟨h.iconLen, h3, hl, ?_, ?_, ?_, h6, h1⟩
  · rw [hl]; exact canonicalDecimal_Itoa _
  · rw [h5, hc.2, List.nil_append, hl]; exact parseDecimal_Itoa _
  · rw [h5, hc.2, List.nil_append]

/-- C3 for the three-byte file `icon` of the local filesystem: the header is
`"3"`. -/
theorem C3_content_length_decimal_witness :
    ∃ s : String,
      ((HandlerFunc.mk (resolveConfig ConfigDefault [{ File := "icon" }]) [1, 2, 3]
        (Itoa 3)).call (Context.fresh ⟨"GET", "/favicon.ico"⟩)).Writer.header "Content-Length" =
          [s] ∧ s = "3" ∧ parseDecimal s = some 3 := by
  obtain ⟨s, h1, h2, -, h4, h5, -, -⟩ :=
    C3_content_length_decimal exampleOS [{ File := "icon" }]
      (HandlerFunc.mk (resolveConfig ConfigDefault [{ File := "icon" }]) [1, 2, 3] (Itoa 3))
      (Context.fresh ⟨"GET", "/favicon.ico"⟩) rfl (by decide) rfl (Or.inl rfl) ⟨rfl, rfl⟩
  refine ⟨s, h1, ?_, ?_⟩
  · rw [h2]; simp [Itoa, formatBits, digitChar]
  · rw [h4, h5]; rfl


/-- C4: for the handler `New` returns with an empty resolved icon, whatever the
package default and the configured CacheControl, a GET or HEAD request for
`/favicon.ico` on a response nothing has been written to gets status 204, an
empty body, a header map left exactly as it was (so no Content-Length,
Content-Type or Cache-Control is set), and the chain is aborted. -/
theorem C4_empty_icon_no_content (dflt : Config) (os : LocalFS) (config : List Config)
    (h : HandlerFunc) (c : Context)
    (hnew : (NewFrom dflt os config).out = Except.ok h) (hicon : h.icon = [])
    (huri : c.Request.RequestURI = "/favicon.ico")
    (hm : c.Request.Method = "GET" ∨ c.Request.Method = "HEAD")
    (hc : c.Unwritten) :
    (h.call c).Writer.status = 204 ∧ (h.call c).Writer.body = [] ∧
      (h.call c).Writer.header = c.Writer.header ∧
      (h.call c).Writer.header "Content-Length" = c.Writer.header "Content-Length" ∧
      (h.call c).Writer.header "Content-Type" = c.Writer.header "Content-Type" ∧
      (h.call c).Writer.header "Cache-Control" = c.Writer.header "Cache-Control" ∧
      (h.call c).IsAborted = true := by
  obtain ⟨-, hz⟩ := New_iconLen_ne dflt os config h hnew
  rw [call_noContent h c huri hm (hz.2 hicon)]
  obtain ⟨h1, h2, h3, -, h5, -⟩ := noContent_fields c hc.1
  refine ⟨h1, ?_, h2, ?_, ?_, ?_, h5⟩
  · rw [h3, hc.2]
  · rw [h2]
  · rw [h2]
  · rw [h2]

/-- C4 for `New()` with no argument and a GET request: status 204 and none of
the three headers on the fresh response. -/
theorem C4_empty_icon_no_content_witness :
    ((HandlerFunc.mk ConfigDefault [] (Itoa 0)).call
        (Context.fresh ⟨"GET", "/favicon.ico"⟩)).Writer.status = 204 ∧
      ((HandlerFunc.mk ConfigDefault [] (Itoa 0)).call
        (Context.fresh ⟨"GET", "/favicon.ico"⟩)).Writer.body = [] ∧
      ((HandlerFunc.mk ConfigDefault [] (Itoa 0)).call
        (Context.fresh ⟨"GET", "/favicon.ico"⟩)).Writer.header "Content-Length" = [] ∧
      ((HandlerFunc.mk ConfigDefault [] (Itoa 0)).call
        (Context.fresh ⟨"GET", "/favicon.ico"⟩)).Writer.header "Content-Type" = [] ∧
      ((HandlerFunc.mk ConfigDefault [] (Itoa 0)).call
        (Context.fresh ⟨"GET", "/favicon.ico"⟩)).Writer.header "Cache-Control" = [] ∧
      ((HandlerFunc.mk ConfigDefault [] (Itoa 0)).call
        (Context.fresh ⟨"GET", "/favicon.ico"⟩)).IsAborted = true :=
  have w := C4_empty_icon_no_content ConfigDefault exampleOS []
    (HandlerFunc.mk ConfigDefault [] (Itoa 0)) (Context.fresh ⟨"GET", "/favicon.ico"⟩)
    rfl rfl rfl (Or.inl rfl) ⟨rfl, rfl⟩
  ⟨w.1, w.2.1, w.2.2.2.1, w.2.2.2.2.1, w.2.2.2.2.2.1, w.2.2.2.2.2.2⟩

/-- C5: for every handler value (so whatever the icon and the configuration),
an OPTIONS request for `/favicon.ico` on a response nothing has been written
to gets status 200, Allow `GET, HEAD, OPTIONS`, Content-Length `0`, an empty
body, and the chain is aborted. -/
theorem C5_options_response (h : HandlerFunc) (c : Context)
    (huri : c.Request.RequestURI = "/favicon.ico")
    (hm : c.Request.Method = "OPTIONS") (hc : c.Unwritten) :
    (h.call c).Writer.status = 200 ∧
      (h.call c).Writer.header "Allow" = ["GET, HEAD, OPTIONS"] ∧
      (h.call c).Writer.header "Content-Length" = ["0"] ∧
      (h.call c).Writer.body = [] ∧ (h.call c).IsAborted = true := by
  have hget : c.Request.Method ≠ "GET" := by rw [hm]; decide
  have hhead : c.Request.Method ≠ "HEAD" := by rw [hm]; decide
  rw [call_gate h c huri hget hhead, if_neg (not_not.2 hm)]
  obtain ⟨h1, h2, h3, -, h5, -, h7, -⟩ := gate_fields c StatusOK (by decide) hc.1
  exact ⟨h1, h2, h3, by rw [h5, hc.2], h7⟩

/-- C5 for a handler holding a three-byte icon. -/
theorem C5_options_response_witness :
    ((HandlerFunc.mk ConfigDefault [1, 2, 3] "3").call
        (Context.fresh ⟨"OPTIONS", "/favicon.ico"⟩)).Writer.status = 200 ∧
      ((HandlerFunc.mk ConfigDefault [1, 2, 3] "3").call
        (Context.fresh ⟨"OPTIONS", "/favicon.ico"⟩)).Writer.header "Allow" =
          ["GET, HEAD, OPTIONS"] ∧
      ((HandlerFunc.mk ConfigDefault [1, 2, 3] "3").call
        (Context.fresh ⟨"OPTIONS", "/favicon.ico"⟩)).Writer.header "Content-Length" = ["0"] ∧
      ((HandlerFunc.mk ConfigDefault [1, 2, 3] "3").call
        (Context.fresh ⟨"OPTIONS", "/favicon.ico"⟩)).Writer.body = [] ∧
      ((HandlerFunc.mk ConfigDefault [1, 2, 3] "3").call
        (Context.fresh ⟨"OPTIONS", "/favicon.ico"⟩)).IsAborted = true :=
  C5_options_response (HandlerFunc.mk ConfigDefault [1, 2, 3] "3")
    (Context.fresh ⟨"OPTIONS", "/favicon.ico"⟩) rfl rfl ⟨rfl, rfl⟩

/-- C6: for every handler value, a request for `/favicon.ico` whose method is
not exactly GET, HEAD or OPTIONS, on a response nothing has been written to,
gets status 405, Allow `GET, HEAD, OPTIONS`, Content-Length `0`, the same header
map as the OPTIONS response on the same context, an empty body (no icon byte
is sent), and the chain is aborted. -/
theorem C6_method_not_allowed (h : HandlerFunc) (c : Context)
    (huri : c.Request.RequestURI = "/favicon.ico")
    (hget : c.Request.Method ≠ "GET") (hhead : c.Request.Method ≠ "HEAD")
    (hopt : c.Request.Method ≠ "OPTIONS") (hc : c.Unwritten) :
    (h.call c).Writer.status = 405 ∧
      (h.call c).Writer.header "Allow" = ["GET, HEAD, OPTIONS"] ∧
      (h.call c).Writer.header "Content-Length" = ["0"] ∧
      (h.call c).Writer.header =
        (h.call { c with Request := { c.Request with Method := "OPTIONS" } }).Writer.header ∧
      (h.call c).Writer.body = [] ∧ (h.call c).IsAborted = true := by
  have e2 := call_gate h { c with Request := { c.Request with Method := "OPTIONS" } } huri
    (show "OPTIONS" ≠ "GET" by decide) (show "OPTIONS" ≠ "HEAD" by decide)
  rw [call_gate h c huri hget hhead, if_pos hopt, e2]
  obtain ⟨h1, h2, h3, h4, h5, -, h7, -⟩ :=
    gate_fields c StatusMethodNotAllowed (by decide) hc.1
  obtain ⟨-, -, -, g4, -⟩ :=
    gate_fields { c with Request := { c.Request with Method := "OPTIONS" } } StatusOK
      (by decide) hc.1
  refine ⟨h1, h2, h3, ?_, by rw [h5, hc.2], h7⟩
  rw [h4]
  exact g4.symm

/-- C6 for the lower-case method `get` and a handler holding a three-byte
icon. -/
theorem C6_method_not_allowed_witness :
    ((HandlerFunc.mk ConfigDefault [1, 2, 3] "3").call
        (Context.fresh ⟨"get", "/favicon.ico"⟩)).Writer.status = 405 ∧
      ((HandlerFunc.mk ConfigDefault [1, 2, 3] "3").call
        (Context.fresh ⟨"get", "/favicon.ico"⟩)).Writer.header "Allow" =
          ["GET, HEAD, OPTIONS"] ∧
      ((HandlerFunc.mk ConfigDefault [1, 2, 3] "3").call
        (Context.fresh ⟨"get", "/favicon.ico"⟩)).Writer.header "Content-Length" = ["0"] ∧
      ((HandlerFunc.mk ConfigDefault [1, 2, 3] "3").call
        (Context.fresh ⟨"get", "/favicon.ico"⟩)).Writer.body = [] ∧
      ((HandlerFunc.mk ConfigDefault [1, 2, 3] "3").call
        (Context.fresh ⟨"get", "/favicon.ico"⟩)).IsAborted = true :=
  have w := C6_method_not_allowed (HandlerFunc.mk ConfigDefault [1, 2, 3] "3")
    (Context.fresh ⟨"get", "/favicon.ico"⟩) rfl (by decide) (by decide) (by decide) ⟨rfl, rfl⟩
  ⟨w.1, w.2.1, w.2.2.1, w.2.2.2.2.1, w.2.2.2.2.2⟩

/-- C7: with `ConfigDefault` at its declared value, the Cache-Control header of
the served response is the CacheControl of the first configuration argument
when that string is non-empty, and `public, max-age=31536000` when it is empty
or when `New` is called with no configuration; no other field of the
configuration enters the value. -/
theorem C7_cache_control_value (os : LocalFS) (config : List Config) (h : HandlerFunc)
    (c : Context) (hnew : (New os config).out = Except.ok h) (hicon : h.icon ≠ [])
    (huri : c.Request.RequestURI = "/favicon.ico")
    (hm : c.Request.Method = "GET" ∨ c.Request.Method = "HEAD")
    (hc : c.Unwritten) :
    (h.call c).Writer.status = 200 ∧
      (h.call c).Writer.header "Cache-Control" =
        [match config with
          | [] => "public, max-age=31536000"
          | c0 :: _ =>
            if c0.CacheControl = "" then "public, max-age=31536000" else c0.CacheControl] := by
  obtain ⟨hne, hz⟩ := New_iconLen_ne ConfigDefault os config h hnew
  obtain ⟨-, hcfg⟩ := NewFrom_iconLen ConfigDefault os config h hnew
  have hlen : h.iconLen ≠ "0" := fun e => hicon (hz.1 e)
  rw [call_serve h c huri hm hlen]
  obtain ⟨h1, -, -, h4, -⟩ :=
    serve_fields c h.iconLen h.cfg.CacheControl h.icon hne hc.1
  have hcc : h.cfg.CacheControl ≠ "" := by
    rw [hcfg]; exact resolveConfig_cacheControl_ne config
  refine ⟨h1, ?_⟩
  rw [h4, if_neg hcc, hcfg]
  cases config with
  | nil => rfl
  | cons c0 rest => rw [resolveConfig_cacheControl]

/-- C7 for `New(Config{File: "icon", CacheControl: "no-cache"})`: the header is
`no-cache`. -/
theorem C7_cache_control_value_witness :
    ((HandlerFunc.mk (resolveConfig ConfigDefault [{ File := "icon", CacheControl := "no-cache" }])
        [1, 2, 3] (Itoa 3)).call
          (Context.fresh ⟨"GET", "/favicon.ico"⟩)).Writer.header "Cache-Control" =
      ["no-cache"] :=
  (C7_cache_control_value exampleOS [{ File := "icon", CacheControl := "no-cache" }]
    (HandlerFunc.mk (resolveConfig ConfigDefault [{ File := "icon", CacheControl := "no-cache" }])
      [1, 2, 3] (Itoa 3))
    (Context.fresh ⟨"GET", "/favicon.ico"⟩) rfl (by decide) rfl (Or.inl rfl) ⟨rfl, rfl⟩).2


/-! ## The icon loader -/

theorem resolveConfig_file (c0 : Config) (rest : List Config) :
    (resolveConfig ConfigDefault (c0 :: rest)).File = c0.File ∧
      (resolveConfig ConfigDefault (c0 :: rest)).FileSystem = c0.FileSystem ∧
      (resolveConfig ConfigDefault (c0 :: rest)).FileData = c0.FileData := by
  unfold resolveConfig
  by_cases hf : c0.File = "" <;> by_cases hc : c0.CacheControl = "" <;>
    simp [hf, hc, ConfigDefault]

/-- The loader when no file is configured. -/
theorem New_no_file (os : LocalFS) (c0 : Config) (rest : List Config) (hfile : c0.File = "") :
    New os (c0 :: rest) =
      { trace := [],
        out := Except.ok { cfg := resolveConfig ConfigDefault (c0 :: rest), icon := c0.FileData,
                           iconLen := Itoa (c0.FileData.length : Int) } } := by
  obtain ⟨h1, -, h3⟩ := resolveConfig_file c0 rest
  unfold New NewFrom
  simp only [h1, h3, hfile, ne_eq, not_true_eq_false, if_false]

/-- The loader when a file is configured and no filesystem is. -/
theorem New_local_file (os : LocalFS) (c0 : Config) (rest : List Config) (hfile : c0.File ≠ "")
    (hfs : c0.FileSystem = none) :
    New os (c0 :: rest) =
      { trace := [FsEvent.osReadFile c0.File],
        out := match os c0.File with
          | Except.error err => Except.error err
          | Except.ok icon =>
            Except.ok { cfg := resolveConfig ConfigDefault (c0 :: rest), icon := icon,
                        iconLen := Itoa (icon.length : Int) } } := by
  obtain ⟨h1, h2, -⟩ := resolveConfig_file c0 rest
  unfold New NewFrom
  simp only [h1, h2, hfs, hfile, ne_eq, not_false_eq_true, if_true]
  cases os c0.File <;> rfl

/-- The loader when a file and a filesystem are configured. -/
theorem New_fs_file (os : LocalFS) (c0 : Config) (rest : List Config) (fs : FileSystem)
    (hfile : c0.File ≠ "") (hfs : c0.FileSystem = some fs) :
    New os (c0 :: rest) =
      match fs.Open c0.File with
      | Except.error err => { trace := [FsEvent.fsOpen c0.File], out := Except.error err }
      | Except.ok f =>
        { trace := [FsEvent.fsOpen c0.File, FsEvent.readAll c0.File],
          out := match f.err with
            | some err => Except.error err
            | none =>
              Except.ok { cfg := resolveConfig ConfigDefault (c0 :: rest), icon := f.data,
                          iconLen := Itoa (f.data.length : Int) } } := by
  obtain ⟨h1, h2, -⟩ := resolveConfig_file c0 rest
  unfold New NewFrom
  simp only [h1, h2, hfs, hfile, ne_eq, not_false_eq_true, if_true]
  cases fs.Open c0.File with
  | error e => rfl
  | ok f =>
    simp only [File.ReadAll]
    cases f.err <;> rfl

/-- C8, as stated, fails: for `Config{File: "icon", FileData: [9]}` the buffer
is provided, yet `New` reads the file `icon` of the local filesystem and the
resolved icon is the file content `[1, 2, 3]`, not the buffer. -/
theorem C8_file_overrides_data :
    (New exampleOS [{ File := "icon", FileData := [9] }]).trace = [FsEvent.osReadFile "icon"] ∧
      (New exampleOS [{ File := "icon", FileData := [9] }]).icon = some [1, 2, 3] ∧
      (New exampleOS [{ File := "icon", FileData := [9] }]).icon ≠
        some ({ File := "icon", FileData := [9] } : Config).FileData := by
  refine ⟨rfl, rfl, ?_⟩
  decide

/-- C8, amended: when File is empty (and `ConfigDefault` has its declared
value), `New` uses the FileData buffer directly as the resolved icon and
performs no file operation, whatever FileSystem is and whether or not the
buffer is empty. -/
theorem C8_data_used_without_file (os : LocalFS) (c0 : Config) (rest : List Config)
    (hfile : c0.File = "") :
    (New os (c0 :: rest)).trace = [] ∧ (New os (c0 :: rest)).icon = some c0.FileData := by
  rw [New_no_file os c0 rest hfile]
  exact ⟨rfl, rfl⟩

/-- C8, amended, for a buffer of one byte with a filesystem set. -/
theorem C8_data_used_without_file_witness :
    (New exampleOS [{ FileSystem := some exampleFS, FileData := [9] }]).trace = [] ∧
      (New exampleOS [{ FileSystem := some exampleFS, FileData := [9] }]).icon = some [9] :=
  C8_data_used_without_file exampleOS { FileSystem := some exampleFS, FileData := [9] } [] rfl

/-- C9: source selection of the loader, with `ConfigDefault` at its declared
value.  When File is empty the resolved icon is FileData and no file operation
is performed, even if FileSystem is set.  When File is non-empty and FileSystem
is set, the only file operations are `Open` of that path on FileSystem followed
by `ReadAll`, and the resolved icon is the bytes read; when FileSystem is nil
the only file operation is `os.ReadFile` of that path and the resolved icon is
its content.  With a non-empty File, the outcome does not depend on FileData. -/
theorem C9_source_selection (os : LocalFS) (c0 : Config) (rest : List Config) :
    (c0.File = "" →
      (New os (c0 :: rest)).icon = some c0.FileData ∧ (New os (c0 :: rest)).trace = []) ∧
    (c0.File ≠ "" → ∀ fs f, c0.FileSystem = some fs → fs.Open c0.File = Except.ok f →
      f.ReadAll.2 = none →
      (New os (c0 :: rest)).icon = some f.ReadAll.1 ∧
        (New os (c0 :: rest)).trace = [FsEvent.fsOpen c0.File, FsEvent.readAll c0.File]) ∧
    (c0.File ≠ "" → ∀ data, c0.FileSystem = none → os c0.File = Except.ok data →
      (New os (c0 :: rest)).icon = some data ∧
        (New os (c0 :: rest)).trace = [FsEvent.osReadFile c0.File]) ∧
    (c0.File ≠ "" → ∀ data : List Byte,
      (New os ({ c0 with FileData := data } :: rest)).icon = (New os (c0 :: rest)).icon ∧
        (New os ({ c0 with FileData := data } :: rest)).trace = (New os (c0 :: rest)).trace) := by
  refine ⟨?_, ?_, ?_, ?_⟩
  · intro hfile
    rw [New_no_file os c0 rest hfile]
    exact ⟨rfl, rfl⟩
  · intro hfile fs f hfs hopen hread
    rw [New_fs_file os c0 rest fs hfile hfs, hopen]
    simp only [File.ReadAll] at hread
    simp only [NewResult.icon, hread, File.ReadAll, and_self]
  · intro hfile data hfs hread
    rw [New_local_file os c0 rest hfile hfs, hread]
    exact ⟨rfl, rfl⟩
  · intro hfile data
    rcases Option.eq_none_or_eq_some c0.FileSystem with hfs | ⟨fs, hfs⟩
    · rw [New_local_file os c0 rest hfile hfs,
        New_local_file os { c0 with FileData := data } rest hfile hfs]
      cases os c0.File <;> exact ⟨rfl, rfl⟩
    · rw [New_fs_file os c0 rest fs hfile hfs,
        New_fs_file os { c0 with FileData := data } rest fs hfile hfs]
      cases fs.Open c0.File with
      | error e => exact ⟨rfl, rfl⟩
      | ok f => cases hf : f.err <;> simp [NewResult.icon, hf]

/-- C9 on the example filesystems: the buffer when File is empty, the file of
the abstract filesystem when it is set, the local file otherwise. -/
theorem C9_source_selection_witness :
    (New exampleOS [{ FileSystem := some exampleFS, FileData := [9] }]).icon = some [9] ∧
      (New exampleOS [{ File := "icon", FileSystem := some exampleFS, FileData := [9] }]).icon =
        some [4, 5] ∧
      (New exampleOS [{ File := "icon", FileData := [9] }]).icon = some [1, 2, 3] ∧
      (New exampleOS [{ File := "icon", FileData := [9] }]).icon =
        (New exampleOS [{ File := "icon" }]).icon :=
  ⟨((C9_source_selection exampleOS { FileSystem := some exampleFS, FileData := [9] } []).1
      rfl).1,
    ((C9_source_selection exampleOS
      { File := "icon", FileSystem := some exampleFS, FileData := [9] } []).2.1
      (by decide) exampleFS { data := [4, 5], err := none } rfl rfl rfl).1,
    ((C9_source_selection exampleOS { File := "icon", FileData := [9] } []).2.2.1
      (by decide) [1, 2, 3] rfl rfl).1,
    ((C9_source_selection exampleOS { File := "icon" } []).2.2.2 (by decide) [9]).1⟩

/-- C10: with `ConfigDefault` at its declared value, `New` panics exactly when
the first configuration argument has a non-empty File whose loading fails
(open or read, through FileSystem when it is set and on the local filesystem
otherwise); it returns a handler in every other case, and a call returns a
handler or panics, never both: a failed load yields no handler, neither one
over FileData nor one over an empty icon. -/
theorem C10_fail_fast (os : LocalFS) (config : List Config) :
    ((∃ err, (New os config).out = Except.error err) ↔
      ∃ c0 rest, config = c0 :: rest ∧ c0.File ≠ "" ∧ loadFails os c0 = true) ∧
    ((∃ h, (New os config).out = Except.ok h) ↔
      ¬ ∃ c0 rest, config = c0 :: rest ∧ c0.File ≠ "" ∧ loadFails os c0 = true) ∧
    ((∃ err, (New os config).out = Except.error err) → (New os config).icon = none) := by
  have key : (∃ err, (New os config).out = Except.error err) ↔
      ∃ c0 rest, config = c0 :: rest ∧ c0.File ≠ "" ∧ loadFails os c0 = true := by
    cases config with
    | nil =>
      constructor
      · rintro ⟨err, he⟩
        simp [New, NewFrom, resolveConfig, ConfigDefault] at he
      · rintro ⟨c0, rest, he, -⟩
        cases he
    | cons c0 rest =>
      by_cases hfile : c0.File = ""
      · rw [New_no_file os c0 rest hfile]
        constructor
        · rintro ⟨err, he⟩
          cases he
        · rintro ⟨c1, r1, he, hf, -⟩
          cases he
          exact absurd hfile hf
      · cases hfs : c0.FileSystem with
        | none =>
          rw [New_local_file os c0 rest hfile hfs]
          cases hos : os c0.File with
          | error e =>
            refine ⟨fun _ => ⟨c0, rest, rfl, hfile, ?_⟩, fun _ => ⟨e, rfl⟩⟩
            simp [loadFails, hfs, hos]
          | ok d =>
            constructor
            · rintro ⟨err, he⟩
              cases he
            · rintro ⟨c1, r1, he, -, hl⟩
              cases he
              simp [loadFails, hfs, hos] at hl
        | some fs =>
          rw [New_fs_file os c0 rest fs hfile hfs]
          cases hop : fs.Open c0.File with
          | error e =>
            refine ⟨fun _ => ⟨c0, rest, rfl, hfile, ?_⟩, fun _ => ⟨e, rfl⟩⟩
            simp [loadFails, hfs, hop]
          | ok f =>
            cases hf : f.err with
            | some e =>
              refine ⟨fun _ => ⟨c0, rest, rfl, hfile, ?_⟩, fun _ => ⟨e, ?_⟩⟩
              · simp [loadFails, hfs, hop, File.ReadAll, hf]
              · simp [hf]
            | none =>
              constructor
              · rintro ⟨err, he⟩
                simp [hf] at he
              · rintro ⟨c1, r1, he, -, hl⟩
                cases he
                simp [loadFails, hfs, hop, File.ReadAll, hf] at hl
  refine ⟨key, ?_, ?_⟩
  · rw [← key]
    cases (New os config).out with
    | error e => simp
    | ok h => simp
  · rintro ⟨err, he⟩
    simp [NewResult.icon, he]

/-- C10 on the example filesystem: a missing file makes `New` panic although
FileData is set, and the file that exists gives a handler. -/
theorem C10_fail_fast_witness :
    (∃ err, (New exampleOS [{ File := "missing", FileData := [9] }]).out = Except.error err) ∧
      (New exampleOS [{ File := "missing", FileData := [9] }]).icon = none ∧
      (∃ h, (New exampleOS [{ File := "icon" }]).out = Except.ok h) :=
  ⟨(C10_fail_fast exampleOS [{ File := "missing", FileData := [9] }]).1.2
      ⟨{ File := "missing", FileData := [9] }, [], rfl, by decide, rfl⟩,
    (C10_fail_fast exampleOS [{ File := "missing", FileData := [9] }]).2.2
      ((C10_fail_fast exampleOS [{ File := "missing", FileData := [9] }]).1.2
        ⟨{ File := "missing", FileData := [9] }, [], rfl, by decide, rfl⟩),
    (C10_fail_fast exampleOS [{ File := "icon" }]).2.1.2 (by
      rintro ⟨c0, rest, he, -, hl⟩
      cases he
      exact absurd hl (by decide))⟩


/-! ## Scenario, determinism and totality -/

theorem mock_icon_iconLen : Itoa ((bytesOf "mock icon data").length : Int) = "14" := by
  have hl : (bytesOf "mock icon data").length = 14 := by decide
  rw [hl]
  simp [Itoa, formatBits, digitChar]

/-- C11, as stated, fails: the text `mock icon data` has 14 bytes, not 15, and
the Content-Length of the response to GET `/favicon.ico` is `14`, not `15`. -/
theorem C11_mock_icon_is_14_bytes :
    (bytesOf "mock icon data").length = 14 ∧
      ((HandlerFunc.mk (resolveConfig ConfigDefault [{ FileData := bytesOf "mock icon data" }])
          (bytesOf "mock icon data") (Itoa ((bytesOf "mock icon data").length : Int))).call
        (Context.fresh ⟨"GET", "/favicon.ico"⟩)).Writer.header "Content-Length" ≠ ["15"] := by
  refine ⟨by decide, ?_⟩
  have hne : Itoa ((bytesOf "mock icon data").length : Int) ≠ "0" := by
    rw [mock_icon_iconLen]; decide
  rw [call_serve _ _ rfl (Or.inl rfl) hne]
  obtain ⟨-, -, h3, -⟩ := serve_fields (Context.fresh ⟨"GET", "/favicon.ico"⟩)
    (Itoa ((bytesOf "mock icon data").length : Int)) "public, max-age=31536000"
    (bytesOf "mock icon data") (by rw [mock_icon_iconLen]; decide) rfl
  have h3b : ((((Context.fresh ⟨"GET", "/favicon.ico"⟩).Header "Content-Length"
      (Itoa ((bytesOf "mock icon data").length : Int))).Header "Cache-Control"
      "public, max-age=31536000").Data StatusOK "image/x-icon"
      (bytesOf "mock icon data")).Abort.Writer.header "Content-Length" = ["14"] := by
    rw [h3, mock_icon_iconLen]
  intro hbad
  have h4 :
      ((((Context.fresh ⟨"GET", "/favicon.ico"⟩).Header "Content-Length"
      (Itoa ((bytesOf "mock icon data").length : Int))).Header "Cache-Control"
      "public, max-age=31536000").Data StatusOK "image/x-icon"
      (bytesOf "mock icon data")).Abort.Writer.header "Content-Length" = ["15"] := hbad
  rw [h3b] at h4
  exact absurd h4 (by decide)

/-- C11, amended: when `New` is given FileData equal to the bytes of
`mock icon data` (14 bytes) and no CacheControl, it returns a handler, and a GET
request for `/favicon.ico` gets status 200, Content-Length `14`, Cache-Control
`public, max-age=31536000`, Content-Type `image/x-icon` and the body
`mock icon data`. -/
theorem C11_mock_icon_scenario (os : LocalFS) :
    ∃ h : HandlerFunc,
      (New os [{ FileData := bytesOf "mock icon data" }]).out = Except.ok h ∧
      (h.call (Context.fresh ⟨"GET", "/favicon.ico"⟩)).Writer.status = 200 ∧
      (h.call (Context.fresh ⟨"GET", "/favicon.ico"⟩)).Writer.header "Content-Length" = ["14"] ∧
      (h.call (Context.fresh ⟨"GET", "/favicon.ico"⟩)).Writer.header "Cache-Control" =
        ["public, max-age=31536000"] ∧
      (h.call (Context.fresh ⟨"GET", "/favicon.ico"⟩)).Writer.header "Content-Type" =
        ["image/x-icon"] ∧
      (h.call (Context.fresh ⟨"GET", "/favicon.ico"⟩)).Writer.body = bytesOf "mock icon data" ∧
      (h.call (Context.fresh ⟨"GET", "/favicon.ico"⟩)).IsAborted = true := by
  refine ⟨HandlerFunc.mk (resolveConfig ConfigDefault [{ FileData := bytesOf "mock icon data" }])
    (bytesOf "mock icon data") (Itoa ((bytesOf "mock icon data").length : Int)), rfl, ?_⟩
  have hne : Itoa ((bytesOf "mock icon data").length : Int) ≠ "0" := by
    rw [mock_icon_iconLen]; decide
  rw [call_serve _ _ rfl (Or.inl rfl) hne]
  obtain ⟨h1, h2, h3, h4, h5, -, h7, -⟩ := serve_fields (Context.fresh ⟨"GET", "/favicon.ico"⟩)
    (Itoa ((bytesOf "mock icon data").length : Int)) "public, max-age=31536000"
    (bytesOf "mock icon data") (by rw [mock_icon_iconLen]; decide) rfl
  refine ⟨h1, ?_, ?_, ?_, ?_, h7⟩
  · exact h3.trans (by rw [mock_icon_iconLen])
  · exact h4
  · exact h2
  · exact h5


theorem Header_writer_congr (c1 c2 : Context) (key value : String)
    (hw : c1.Writer = c2.Writer) :
    (c1.Header key value).Writer = (c2.Header key value).Writer := by
  unfold Context.Header
  split <;> simp [hw]

theorem AbortWithStatus_writer_congr (c1 c2 : Context) (code : Int)
    (hw : c1.Writer = c2.Writer) :
    (c1.AbortWithStatus code).Writer = (c2.AbortWithStatus code).Writer := by
  simp [Context.AbortWithStatus, Context.Status, Context.Abort, hw]

theorem Data_writer_congr (c1 c2 : Context) (code : Int) (contentType : String)
    (data : List Byte) (hw : c1.Writer = c2.Writer) :
    ((c1.Data code contentType data).Abort).Writer =
      ((c2.Data code contentType data).Abort).Writer := by
  unfold Context.Data Context.Abort
  simp only [Context.Status, hw]
  split <;> rfl

theorem call_writer_congr (h : HandlerFunc) (c1 c2 : Context)
    (hm : c1.Request.Method = c2.Request.Method)
    (hu : c1.Request.RequestURI = c2.Request.RequestURI) (hw : c1.Writer = c2.Writer) :
    (h.call c1).Writer = (h.call c2).Writer := by
  by_cases huri : c1.Request.RequestURI = "/favicon.ico"
  · have huri2 : c2.Request.RequestURI = "/favicon.ico" := hu ▸ huri
    by_cases hg : c1.Request.Method = "GET" ∨ c1.Request.Method = "HEAD"
    · have hg2 : c2.Request.Method = "GET" ∨ c2.Request.Method = "HEAD" := hm ▸ hg
      by_cases hlen : h.iconLen = "0"
      · rw [call_noContent h c1 huri hg hlen, call_noContent h c2 huri2 hg2 hlen]
        exact AbortWithStatus_writer_congr c1 c2 _ hw
      · rw [call_serve h c1 huri hg hlen, call_serve h c2 huri2 hg2 hlen]
        exact Data_writer_congr _ _ _ _ _
          (Header_writer_congr _ _ _ _ (Header_writer_congr c1 c2 _ _ hw))
    · have hget : c1.Request.Method ≠ "GET" := fun e => hg (Or.inl e)
      have hhead : c1.Request.Method ≠ "HEAD" := fun e => hg (Or.inr e)
      rw [call_gate h c1 huri hget hhead, call_gate h c2 huri2 (hm ▸ hget) (hm ▸ hhead), hm]
      exact AbortWithStatus_writer_congr _ _ _
        (Header_writer_congr _ _ _ _ (Header_writer_congr c1 c2 _ _ hw))
  · rw [call_other h c1 huri, call_other h c2 (hu ▸ huri)]
    exact hw

theorem serve_eq (s : Machine) :
    s.serve = { s with c := (s.vars.handler s.mem).call s.c } := by
  unfold Machine.serve HandlerFunc.call
  simp only [Closure.handler, Machine.Header, Machine.AbortWithStatus, Machine.Data,
    Machine.Abort]
  split_ifs <;> rfl

theorem store_bytes (mem : Memory) (s : Slice) (i : Nat) (b : Byte) (sl : Slice)
    (hne : s.ptr ≠ sl.ptr) : sl.bytes (mem.store s i b) = sl.bytes mem := by
  unfold Slice.bytes Memory.store
  rw [if_neg (fun hc => hne hc.1.symm)]

theorem call_fresh_spec (h : HandlerFunc) (hlen : h.iconLen = Itoa (h.icon.length : Int))
    (hcc : h.cfg.CacheControl ≠ "") (req : Request) :
    h.call (Context.fresh req) = specResponse h.icon h.cfg.CacheControl req := by
  have hne : h.iconLen ≠ "" := by
    rw [hlen]
    intro he
    have h1 := (canonicalDecimal_Itoa h.icon.length).1
    rw [he] at h1
    exact h1 rfl
  have hz : h.iconLen = "0" ↔ h.icon = [] := by
    rw [hlen, Itoa_eq_zero_iff]
    exact List.length_eq_zero
  unfold specResponse
  by_cases huri : req.RequestURI = "/favicon.ico"
  · rw [if_pos huri]
    by_cases hg : req.Method = "GET" ∨ req.Method = "HEAD"
    · rw [if_pos hg]
      by_cases hi : h.icon = []
      · rw [if_pos hi, call_noContent h _ huri hg (hz.2 hi)]
        rfl
      · rw [if_neg hi, call_serve h _ huri hg (fun e => hi (hz.1 e))]
        rw [← hlen]
        simp [Context.fresh, Context.Data, Context.Status, Context.Abort, Context.Header,
          writeContentType, bodyAllowedForStatus, ResponseWriter.Write,
          ResponseWriter.WriteHeader, ResponseWriter.WriteHeaderNow, ResponseWriter.Written,
          Header.Set, Header.Del, hne, hcc, noWritten, StatusOK, StatusNoContent,
          StatusNotModified]
        funext key
        by_cases h1 : key = "Content-Type" <;> by_cases h2 : key = "Content-Length" <;>
          by_cases h3 : key = "Cache-Control" <;> simp_all
    · rw [if_neg hg]
      have hget : req.Method ≠ "GET" := fun e => hg (Or.inl e)
      have hhead : req.Method ≠ "HEAD" := fun e => hg (Or.inr e)
      have e := call_gate h (Context.fresh req) huri hget hhead
      have hm : (Context.fresh req).Request.Method = req.Method := rfl
      rw [hm] at e
      by_cases ho : req.Method = "OPTIONS"
      · rw [if_pos ho, e, if_neg (not_not.2 ho)]
        simp [Context.fresh, Context.AbortWithStatus, Context.Status, Context.Abort,
          Context.Header, ResponseWriter.WriteHeader, ResponseWriter.WriteHeaderNow,
          ResponseWriter.Written, noWritten, StatusOK]
        funext key
        by_cases h1 : key = "Allow" <;> by_cases h2 : key = "Content-Length" <;>
          simp_all [Header.Set]
      · rw [if_neg ho, e, if_pos ho]
        simp [Context.fresh, Context.AbortWithStatus, Context.Status, Context.Abort,
          Context.Header, ResponseWriter.WriteHeader, ResponseWriter.WriteHeaderNow,
          ResponseWriter.Written, noWritten, StatusMethodNotAllowed]
        funext key
        by_cases h1 : key = "Allow" <;> by_cases h2 : key = "Content-Length" <;>
          simp_all [Header.Set]
  · rw [if_neg huri]
    exact call_other h _ huri

theorem run_spec (h : HandlerFunc) (k : Closure)
    (hlen : h.iconLen = Itoa (h.icon.length : Int)) (hcc : h.cfg.CacheControl ≠ "")
    (events : List Event) :
    ∀ mem : Memory, k.handler mem = h → (∀ e ∈ events, e.avoids k.icon.ptr) →
      (run k mem events).vars = k ∧ k.handler (run k mem events).mem = h ∧
        (run k mem events).responses =
          (requestsOf events).map (specResponse h.icon h.cfg.CacheControl) := by
  induction events with
  | nil =>
    intro mem hk _
    exact ⟨rfl, hk, rfl⟩
  | cons e es ih =>
    intro mem hk hframe
    have hes : ∀ e ∈ es, e.avoids k.icon.ptr := fun e he => hframe e (List.mem_cons_of_mem _ he)
    cases e with
    | request req =>
      have hs := serve_eq { vars := k, mem := mem, c := Context.fresh req }
      simp only [hk] at hs
      obtain ⟨i1, i2, i3⟩ := ih mem hk hes
      simp only [run, requestsOf, List.map_cons, hs]
      exact ⟨i1, i2, by rw [i3, call_fresh_spec h hlen hcc req]⟩
    | store sl i b =>
      have hav : sl.ptr ≠ k.icon.ptr := hframe _ (List.mem_cons_self _ _)
      have hk2 : k.handler (mem.store sl i b) = h := by
        rw [← hk]
        simp only [Closure.handler, store_bytes mem sl i b k.icon hav]
      simpa only [run, requestsOf] using ih (mem.store sl i b) hk2 hes

/-- A store into the array of the icon slice, between two GET requests,
changes the body served: the handler reads the array at each request. -/
theorem run_store_into_icon :
    ((run { cfg := ConfigDefault, icon := ⟨0, 3⟩, iconLen := Itoa 3 } exampleMemory
        [Event.request ⟨"GET", "/favicon.ico"⟩, Event.store ⟨0, 3⟩ 0 1,
          Event.request ⟨"GET", "/favicon.ico"⟩]).responses.map
      (fun c => c.Writer.body)) = [[7, 8, 9], [1, 8, 9]] := by
  have hne : Itoa 3 ≠ "0" := by simp [Itoa, formatBits, digitChar]
  have hne0 : Itoa 3 ≠ "" := by simp [Itoa, formatBits, digitChar]
  have b1 := (serve_fields (Context.fresh ⟨"GET", "/favicon.ico"⟩) (Itoa 3)
    ConfigDefault.CacheControl [7, 8, 9] hne0 rfl).2.2.2.2.1
  have b2 := (serve_fields (Context.fresh ⟨"GET", "/favicon.ico"⟩) (Itoa 3)
    ConfigDefault.CacheControl [1, 8, 9] hne0 rfl).2.2.2.2.1
  simp only [run, serve_eq, List.map]
  rw [call_serve _ _ rfl (Or.inl rfl) hne, call_serve _ _ rfl (Or.inl rfl) hne]
  exact congrArg₂ (fun x y => [x, y]) b1 b2

theorem requestsOf_replicate (n : Nat) (req : Request) :
    requestsOf (List.replicate n (Event.request req)) = List.replicate n req := by
  induction n with
  | zero => rfl
  | succ n ih => simp only [List.replicate_succ, requestsOf, ih]

theorem run_requests_mem (k : Closure) (mem : Memory) (reqs : List Request) :
    (run k mem (reqs.map Event.request)).mem = mem ∧
      (run k mem (reqs.map Event.request)).vars = k := by
  induction reqs with
  | nil => exact ⟨rfl, rfl⟩
  | cons req reqs ih =>
    simp only [List.map_cons, run, serve_eq]
    exact ih

/-- C12: for the handler `New` returns, held by the program as the closure `k`
over the memory `mem`, and for every sequence of events (requests, and stores
by other code into arrays other than the one of the icon slice): each response
is the one the response table of the specification gives for the method and
the RequestURI of its request, with the icon bytes and cache-control string
`New` resolved; the same request served `n` times gets `n` equal responses; the
captured variables are unchanged, and so are the icon bytes, the length string
and the cache-control string; and handling requests alone leaves the whole
memory unchanged. -/
theorem C12_deterministic_responses (os : LocalFS) (config : List Config) (h : HandlerFunc)
    (k : Closure) (mem : Memory) (events : List Event)
    (hnew : (New os config).out = Except.ok h) (hk : k.handler mem = h)
    (hframe : ∀ e ∈ events, e.avoids k.icon.ptr) :
    (run k mem events).responses =
        (requestsOf events).map (specResponse h.icon h.cfg.CacheControl) ∧
      (∀ (n : Nat) (req : Request),
        (run k mem (List.replicate n (Event.request req))).responses =
          List.replicate n (specResponse h.icon h.cfg.CacheControl req)) ∧
      (run k mem events).vars = k ∧
      (run k mem events).vars.icon.bytes (run k mem events).mem = h.icon ∧
      (run k mem events).vars.iconLen = h.iconLen ∧
      (run k mem events).vars.cfg.CacheControl = h.cfg.CacheControl ∧
      (∀ reqs : List Request, (run k mem (reqs.map Event.request)).mem = mem ∧
        (run k mem (reqs.map Event.request)).vars = k) := by
  obtain ⟨hlen, hcfg⟩ := NewFrom_iconLen ConfigDefault os config h hnew
  have hcc : h.cfg.CacheControl ≠ "" := by
    rw [hcfg]; exact resolveConfig_cacheControl_ne config
  obtain ⟨r1, r2, r3⟩ := run_spec h k hlen hcc events mem hk hframe
  refine ⟨r3, ?_, r1, ?_, ?_, ?_, run_requests_mem k mem⟩
  · intro n req
    have hf : ∀ e ∈ List.replicate n (Event.request req), e.avoids k.icon.ptr := by
      intro e he
      rw [(List.mem_replicate.1 he).2]
      exact trivial
    rw [(run_spec h k hlen hcc _ mem hk hf).2.2, requestsOf_replicate, List.map_replicate]
  · rw [r1]
    exact congrArg HandlerFunc.icon r2
  · rw [r1]
    exact congrArg HandlerFunc.iconLen hk
  · rw [r1]
    exact congrArg (fun x => x.cfg.CacheControl) hk

/-- C12 for `New(Config{FileData: [7, 8, 9]})`, its icon slice at address 0:
two GET requests with a store into another array between them get the same
response, the one of the response table. -/
theorem C12_deterministic_responses_witness :
    (run { cfg := resolveConfig ConfigDefault [{ FileData := [7, 8, 9] }], icon := ⟨0, 3⟩,
           iconLen := Itoa 3 } exampleMemory
        [Event.request ⟨"GET", "/favicon.ico"⟩, Event.store ⟨1, 2⟩ 0 5,
          Event.request ⟨"GET", "/favicon.ico"⟩]).responses =
      [specResponse [7, 8, 9] "public, max-age=31536000" ⟨"GET", "/favicon.ico"⟩,
        specResponse [7, 8, 9] "public, max-age=31536000" ⟨"GET", "/favicon.ico"⟩] :=
  (C12_deterministic_responses exampleOS [{ FileData := [7, 8, 9] }]
    (HandlerFunc.mk (resolveConfig ConfigDefault [{ FileData := [7, 8, 9] }]) [7, 8, 9] (Itoa 3))
    { cfg := resolveConfig ConfigDefault [{ FileData := [7, 8, 9] }], icon := ⟨0, 3⟩,
      iconLen := Itoa 3 } exampleMemory
    [Event.request ⟨"GET", "/favicon.ico"⟩, Event.store ⟨1, 2⟩ 0 5,
      Event.request ⟨"GET", "/favicon.ico"⟩]
    rfl rfl (by
      intro e he
      simp only [List.mem_cons, List.mem_singleton, List.not_mem_nil, or_false] at he
      rcases he with he | he | he <;> subst he <;> simp [Event.avoids])).1

theorem call_index (h : HandlerFunc) (c : Context)
    (huri : c.Request.RequestURI = "/favicon.ico") : (h.call c).index = abortIndex := by
  by_cases hg : c.Request.Method = "GET" ∨ c.Request.Method = "HEAD"
  · by_cases hlen : h.iconLen = "0"
    · rw [call_noContent h c huri hg hlen]; rfl
    · rw [call_serve h c huri hg hlen]; rfl
  · rw [call_gate h c huri (fun e => hg (Or.inl e)) (fun e => hg (Or.inr e))]; rfl

theorem call_decision (h : HandlerFunc) (c : Context) :
    ∃ d : RequestDecision, h.call c = d.respond h c := by
  by_cases huri : c.Request.RequestURI = "/favicon.ico"
  · by_cases hg : c.Request.Method = "GET" ∨ c.Request.Method = "HEAD"
    · by_cases hlen : h.iconLen = "0"
      · exact ⟨RequestDecision.NoContent, call_noContent h c huri hg hlen⟩
      · exact ⟨RequestDecision.Served, call_serve h c huri hg hlen⟩
    · have e := call_gate h c huri (fun e => hg (Or.inl e)) (fun e => hg (Or.inr e))
      by_cases ho : c.Request.Method = "OPTIONS"
      · rw [if_neg (not_not.2 ho)] at e
        exact ⟨RequestDecision.OptionsOk, e⟩
      · rw [if_pos ho] at e
        exact ⟨RequestDecision.MethodNotAllowed, e⟩
  · exact ⟨RequestDecision.NotHandled, call_other h c huri⟩

/-- What tells the five responses on a fresh context apart: whether the chain
is aborted, the status, and the values of the Allow header. -/
theorem respond_fresh (h : HandlerFunc) (req : Request) (d : RequestDecision) :
    ((d.respond h (Context.fresh req)).IsAborted,
      (d.respond h (Context.fresh req)).Writer.status,
      (d.respond h (Context.fresh req)).Writer.header "Allow") =
    match d with
    | RequestDecision.NotHandled => (false, 200, [])
    | RequestDecision.NoContent => (true, 204, [])
    | RequestDecision.MethodNotAllowed => (true, 405, ["GET, HEAD, OPTIONS"])
    | RequestDecision.OptionsOk => (true, 200, ["GET, HEAD, OPTIONS"])
    | RequestDecision.Served => (true, 200, []) := by
  cases d with
  | NotHandled => rfl
  | NoContent => rfl
  | MethodNotAllowed => rfl
  | OptionsOk => rfl
  | Served =>
    by_cases hl : h.iconLen = "" <;> by_cases hc : h.cfg.CacheControl = "" <;>
      simp [RequestDecision.respond, Context.fresh, Context.Data, Context.Status, Context.Abort,
        Context.Header, writeContentType, bodyAllowedForStatus, ResponseWriter.Write,
        ResponseWriter.WriteHeader, ResponseWriter.WriteHeaderNow, ResponseWriter.Written,
        Context.IsAborted, Header.Set, Header.Del, hl, hc, noWritten, abortIndex,
        StatusOK, StatusNoContent, StatusNotModified]

theorem respond_fresh_injective (h : HandlerFunc) (req : Request) (d1 d2 : RequestDecision)
    (e : d1.respond h (Context.fresh req) = d2.respond h (Context.fresh req)) : d1 = d2 := by
  have h1 := respond_fresh h req d1
  have h2 := respond_fresh h req d2
  rw [e] at h1
  rw [h1] at h2
  cases d1 <;> cases d2 <;> first | rfl | (exfalso; revert h2; decide)

/-- C13: for every handler value, method and RequestURI, the call on a fresh
context is exactly one of the five outcomes (not handled, 204, 405, OPTIONS
200, served 200); on a context whose chain is not aborted, the handler aborts
the chain if and only if the RequestURI is `/favicon.ico`; after a request for
`/favicon.ico` the loop of `Next` calls no further handler of any chain gin
accepts (fewer than `abortIndex` handlers), after any other request it goes on
as before; and `/favicon.ico` has the 12 bytes the length guard asks for. -/
theorem C13_total_and_final (h : HandlerFunc) :
    (∀ req : Request, ∃! d : RequestDecision,
      h.call (Context.fresh req) = d.respond h (Context.fresh req)) ∧
    (∀ c : Context, c.IsAborted = false →
      ((h.call c).IsAborted = true ↔ c.Request.RequestURI = "/favicon.ico")) ∧
    (∀ c : Context, c.Request.RequestURI = "/favicon.ico" →
      ∀ n : Nat, (n : Int) < abortIndex → (h.call c).nextRuns n = false) ∧
    (∀ c : Context, c.Request.RequestURI ≠ "/favicon.ico" →
      ∀ n : Nat, (h.call c).nextRuns n = c.nextRuns n) ∧
    "/favicon.ico".utf8ByteSize = 12 := by
  refine ⟨?_, ?_, ?_, ?_, by decide⟩
  · intro req
    obtain ⟨d, hd⟩ := call_decision h (Context.fresh req)
    refine ⟨d, hd, ?_⟩
    intro d2 hd2
    exact respond_fresh_injective h req d2 d (hd2.symm.trans hd)
  · intro c hc
    by_cases huri : c.Request.RequestURI = "/favicon.ico"
    · have hi := call_index h c huri
      simp [Context.IsAborted, hi, huri]
    · rw [call_other h c huri, hc]
      simp [huri]
  · intro c huri n hn
    have hi := call_index h c huri
    simp only [Context.nextRuns, hi, decide_eq_false_iff_not, not_lt]
    unfold abortIndex at hn ⊢
    omega
  · intro c huri n
    rw [call_other h c huri]

/-- C13 for a handler holding a three-byte icon: a POST request for
`/favicon.ico` aborts the chain and stops a chain of two handlers, a GET
request for `/` does neither. -/
theorem C13_total_and_final_witness :
    ((HandlerFunc.mk ConfigDefault [1, 2, 3] "3").call
        (Context.fresh ⟨"POST", "/favicon.ico"⟩)).IsAborted = true ∧
      ((HandlerFunc.mk ConfigDefault [1, 2, 3] "3").call
        (Context.fresh ⟨"POST", "/favicon.ico"⟩)).nextRuns 2 = false ∧
      ((HandlerFunc.mk ConfigDefault [1, 2, 3] "3").call
        (Context.fresh ⟨"GET", "/"⟩)).nextRuns 2 = true :=
  ⟨((C13_total_and_final (HandlerFunc.mk ConfigDefault [1, 2, 3] "3")).2.1
      (Context.fresh ⟨"POST", "/favicon.ico"⟩) rfl).2 rfl,
    (C13_total_and_final (HandlerFunc.mk ConfigDefault [1, 2, 3] "3")).2.2.1
      (Context.fresh ⟨"POST", "/favicon.ico"⟩) rfl 2 (by decide),
    ((C13_total_and_final (HandlerFunc.mk ConfigDefault [1, 2, 3] "3")).2.2.2.1
      (Context.fresh ⟨"GET", "/"⟩) (by decide) 2).trans (by decide)⟩

/-! ## Release of the opened file, and the arguments of `New` -/

/-- C14 on the code: with a filesystem and a path, `New` opens the file and
reads it, and performs no `Close`: the handle is still open when `New` returns
the handler, and also when the read fails and `New` panics. -/
theorem C14_opened_file_not_closed :
    (New exampleOS [{ File := "icon", FileSystem := some exampleFS }]).trace =
        [FsEvent.fsOpen "icon", FsEvent.readAll "icon"] ∧
      (New exampleOS [{ File := "icon", FileSystem := some exampleFS }]).icon = some [4, 5] ∧
      openHandles (New exampleOS [{ File := "icon", FileSystem := some exampleFS }]).trace =
        ["icon"] ∧
      (New exampleOS [{ File := "icon", FileSystem := some exampleBrokenFS }]).trace =
        [FsEvent.fsOpen "icon", FsEvent.readAll "icon"] ∧
      (New exampleOS [{ File := "icon", FileSystem := some exampleBrokenFS }]).icon = none ∧
      openHandles (New exampleOS [{ File := "icon", FileSystem := some exampleBrokenFS }]).trace =
        ["icon"] := by
  refine ⟨rfl, rfl, rfl, rfl, rfl, rfl⟩

/-- C15: with `ConfigDefault` at its declared value, `New()` and `New(Config{})`
perform the same file operations (none) and return the same handler, so the
two handlers respond identically to every request; and `New(c, more...)` is
`New(c)`, whatever the further arguments are. -/
theorem C15_default_and_extra_arguments (os : LocalFS) :
    New os [] = New os [({} : Config)] ∧
    (∃ h1 h2 : HandlerFunc, (New os []).out = Except.ok h1 ∧
      (New os [({} : Config)]).out = Except.ok h2 ∧ ∀ c : Context, h1.call c = h2.call c) ∧
    (∀ (c0 : Config) (more : List Config), New os (c0 :: more) = New os [c0]) := by
  refine ⟨rfl, ⟨_, _, rfl, rfl, fun _ => rfl⟩, ?_⟩
  intro c0 more
  rfl

end Favicon
